import Mathlib

/-!
The class `Conditions` of src/Conditions/index.js.

A shallow embedding of the `Conditions` class: the condition map, the constructor,
`assess`, the outcome lookup `_effects`, the accumulation reducer of `_update`, and
the overflow / escalation handler `_checkAndSave`.

Modelling conventions.

* JavaScript numbers are idealised as rationals (exact arithmetic); the two
  non-numeric results the code itself produces in numeric positions, `undefined`
  (a callback that ends without `return`) and `NaN` (arithmetic on `undefined`),
  are kept as separate values.
* A string position (`type`, `duration`, `label`, a `Map` key) holds a string or
  `undefined`; it is an `Option String`, `none` standing for `undefined`.
* A `Map` is an insertion-ordered association list.
* A method that reads or writes `this` takes the instance and returns the new
  instance with its result; a JavaScript `TypeError` is an `Except` error.
* `Costs.weight` and the clock behind the getter `age` belong to `../Utils`, which is
  not among the sources: `assess` takes them as parameters.
* `assess` takes arguments of any shape (`Argument`); the typed outcome inputs of the
  data model (`Outcomes`) are embedded among them.
-/

set_option autoImplicit false

/-- A JavaScript value in a numeric position. -/
inductive Value where
  | undefined : Value
  | nan : Value
  | num (q : ℚ) : Value
  deriving DecidableEq, Repr

namespace Value

/-- JavaScript `a + b` on numeric positions: `undefined` converts to `NaN`. -/
def add : Value → Value → Value
  | num a, num b => num (a + b)
  | _, _ => nan

/-- JavaScript `a - b`. -/
def sub : Value → Value → Value
  | num a, num b => num (a - b)
  | _, _ => nan

/-- JavaScript `a * b`. -/
def mul : Value → Value → Value
  | num a, num b => num (a * b)
  | _, _ => nan

/-- JavaScript `a > b`: false as soon as one side is `NaN` or `undefined`. -/
def gt : Value → Value → Bool
  | num a, num b => decide (a > b)
  | _, _ => false

/-- JavaScript `a < b`. -/
def lt : Value → Value → Bool
  | num a, num b => decide (a < b)
  | _, _ => false

/-- JavaScript `a <= b`. -/
def le : Value → Value → Bool
  | num a, num b => decide (a ≤ b)
  | _, _ => false

end Value

/-- An insertion-ordered JavaScript `Map` whose keys are strings or `undefined`. -/
abbrev JSMap (α : Type) := List (Option String × α)

namespace JSMap

variable {α : Type}

/-- The method `Map.prototype.has`. -/
def has (m : JSMap α) (k : Option String) : Bool :=
  m.any (fun e => decide (e.1 = k))

/-- The method `Map.prototype.get`; `none` is JavaScript's `undefined`. -/
def get (m : JSMap α) (k : Option String) : Option α :=
  (m.find? (fun e => decide (e.1 = k))).map Prod.snd

/-- The method `Map.prototype.set`: an existing key keeps its place, a new key goes last. -/
def set : JSMap α → Option String → α → JSMap α
  | [], k, v => [(k, v)]
  | (k', v') :: m, k, v => if k' = k then (k, v) :: m else (k', v') :: set m k v

/-- The method `Map.prototype.delete`. -/
def delete (m : JSMap α) (k : Option String) : JSMap α :=
  m.filter (fun e => decide (e.1 ≠ k))

/-- The method `Map.prototype.values`, as `Array.from` lists it. -/
def values (m : JSMap α) : List α :=
  m.map Prod.snd

end JSMap

/-- The `progression` field of a condition. -/
structure Progression where
  rate : Value
  weight : Value
  deriving DecidableEq, Repr

/-- A condition object. A property that is missing reads as `undefined`. -/
structure Condition where
  label : Option String
  type : Option String
  duration : Option String
  weight : Value
  progression : Option Progression
  deriving DecidableEq, Repr

/-- The empty object `{}`, which is what `Object.assign({}, undefined)` returns. -/
def Condition.empty : Condition :=
  { label := none, type := none, duration := none, weight := Value.undefined,
    progression := none }

/-- The event object `{type, weight}` pushed by `_checkAndSave`. -/
structure EmergingEvent where
  type : Option String
  weight : Value
  deriving DecidableEq, Repr

/-- A thrown JavaScript error. -/
inductive JSError where
  | typeError : JSError
  deriving DecidableEq, Repr

/-- The fields of a `Conditions` instance that the methods below read or write.
`conditionsMap` is `undefined` (`none`) or a `Map`. `conditions` is the property
`this.conditions` read by `_update` (line 93); no method assigns it, so it is
`undefined` (`none`) unless a caller has put a plain object of conditions there. -/
structure Conditions where
  conditionsMap : Option (JSMap Condition)
  conditions : Option (List (String × Condition))
  deriving DecidableEq, Repr

namespace Conditions

/-- The getter `status` (lines 43-45): `Array.from(this.conditionsMap.values())`. -/
def status (self : Conditions) : Except JSError (List Condition) :=
  match self.conditionsMap with
  | none => Except.error JSError.typeError
  | some m => Except.ok m.values

/-- The method `_effects(type, outcomes, effect)` (lines 81-88). `effect` is the string
`'positive'` or `'negative'`, so `effect.type` is `undefined`: the key tested by
`outcomes.has` is `undefined`. A key that is absent makes `outcomes.get` return
`undefined`. -/
def _effects (type : Option String) (outcomes : JSMap Value) (effect : String) : Value :=
  if outcomes.has none then
    let modifier : Value := if effect = "positive" then Value.num (-1) else Value.num 1
    Value.mul modifier ((outcomes.get type).getD Value.undefined)
  else
    Value.num 0

/-- The callback of `updates.reduce` in `_update` (lines 96-113), `acc` being the
callback's first parameter. In case `'permanent'` a `num` that is not `< 0` falls
through into the body of case `'temporary'`; `break` leaves the `switch` and the
callback ends without `return`, so it returns `undefined`. -/
def _update.reducer (duration : Option String) (acc num : Value) : Value :=
  if duration = some "permanent" then
    if Value.lt num (Value.num 0) then acc
    else if Value.gt num (Value.num 0) then acc
    else Value.undefined
  else if duration = some "temporary" then
    if Value.gt num (Value.num 0) then acc
    else Value.undefined
  else
    Value.add acc num

/-- The local `update` of `_update` (line 96): `updates.reduce(callback, 0)`. -/
def _update.update (duration : Option String) (updates : List Value) : Value :=
  updates.foldl (_update.reducer duration) (Value.num 0)

/-- The method `_checkAndSave(key, condition, update)` (lines 120-150). -/
def _checkAndSave (self : Conditions) (key : Option String) (condition : Condition)
    (update : Value) : Except JSError (Conditions × List EmergingEvent) :=
  if condition.duration = some "temporary" ∧ Value.le condition.weight (Value.num 0) = true then
    match self.conditionsMap with
    | none => Except.error JSError.typeError
    | some m => Except.ok ({ self with conditionsMap := some (m.delete key) }, [])
  else
    let r : List EmergingEvent × Condition :=
      if Value.gt (Value.add condition.weight update) (Value.num 1) = true then
        let delta := Value.sub (Value.add condition.weight update) (Value.num 1)
        let events := [{ type := condition.type, weight := delta }]
        if condition.duration = some "chronic" then
          (events, { condition with duration := some "permanent" })
        else if condition.duration = some "temporary" then
          (events, { condition with duration := some "chronic", weight := Value.num 1 })
        else
          (events, { condition with weight := Value.num 1 })
      else
        ([], condition)
    let condition := { r.2 with weight := Value.add r.2.weight update }
    match self.conditionsMap with
    | none => Except.error JSError.typeError
    | some m => Except.ok ({ self with conditionsMap := some (m.set key condition) }, r.1)

/-- The property name a key converts to in `this.conditions[key]`. -/
def propertyName (key : Option String) : String :=
  key.getD "undefined"

/-- The method `_update(key, updates)` (lines 92-117). `this.conditions[key]` throws a
`TypeError` when `this.conditions` is `undefined`; a missing property reads as
`undefined`, which `Object.assign` copies as the empty object. -/
def _update (self : Conditions) (key : Option String) (updates : List Value) :
    Except JSError (Conditions × List EmergingEvent) :=
  match self.conditions with
  | none => Except.error JSError.typeError
  | some obj =>
    let condition : Condition :=
      ((obj.find? (fun e => decide (e.1 = propertyName key))).map Prod.snd).getD Condition.empty
    let duration := condition.duration
    let update := _update.update duration updates
    self._checkAndSave key condition update

/-- The index of a duration class in `[temporary, chronic, permanent]`, the order in
which line 129 lists the escalation; any other value of `duration` has no index. -/
def durationIndex (duration : Option String) : Option Nat :=
  if duration = some "temporary" then some 0
  else if duration = some "chronic" then some 1
  else if duration = some "permanent" then some 2
  else none

/-- The callback of `priorConditions.reduce` in the constructor (lines 33-35), `acc`
being the callback's first parameter: the `Map`, or `undefined` (`none`). Calling
`acc.set` on `undefined` throws a `TypeError`; on a `Map` it updates that map in place,
and the callback then ends without `return`, so it returns `undefined`. -/
def constructor.reducer (acc : Option (JSMap Condition)) (condition : Condition) :
    Except JSError (Option (JSMap Condition)) :=
  match acc with
  | none => Except.error JSError.typeError
  | some m =>
    let _updated := m.set condition.label condition
    Except.ok none

/-- The reduce of the constructor: `priorConditions.reduce(callback, new Map())`. -/
def constructor.reduce :
    List Condition → Option (JSMap Condition) → Except JSError (Option (JSMap Condition))
  | [], acc => Except.ok acc
  | condition :: rest, acc =>
    match constructor.reducer acc condition with
    | Except.error e => Except.error e
    | Except.ok acc' => constructor.reduce rest acc'

/-- The constructor (lines 31-38). `BIRTH` and `clock` only serve the getter `age`, which
`assess` takes as a parameter; `this.conditions` is not assigned. -/
def constructor (priorConditions : List Condition) : Except JSError Conditions :=
  match constructor.reduce priorConditions (some []) with
  | Except.error e => Except.error e
  | Except.ok cm => Except.ok { conditionsMap := cm, conditions := none }

/-- A typed outcome input of `assess`: nothing (`undefined`, the default parameter then
applies), a `Map`, an `Array` of `[type, magnitude]` pairs, or a value that is not a
collection at all, neither an `Array` nor a `Map` and without a method `has` (a plain
object, a number, `null`). -/
inductive Outcomes where
  | undefined : Outcomes
  | map (m : JSMap Value) : Outcomes
  | array (pairs : List (Option String × Value)) : Outcomes
  | other : Outcomes
  deriving DecidableEq, Repr

/-- A value of any shape passed to `assess` as `positive` or as `negative`: `undefined`,
a `Map`, an `Array` (each element being an object read as the entry
`[element[0], element[1]]`, or a value that is not an object, `none`), a `Set` of strings
and `undefined` (a `WeakMap` or `WeakSet` behaves as the empty `Set` here), or a value
that is neither an `Array` nor a `Map` and has no method `has`. -/
inductive Argument where
  | undefined : Argument
  | map (m : JSMap Value) : Argument
  | array (items : List (Option (Option String × Value))) : Argument
  | set (elements : List (Option String)) : Argument
  | other : Argument
  deriving DecidableEq, Repr

/-- The embedding of a typed outcome input among the values a caller can pass. -/
def Outcomes.toArgument : Outcomes → Argument
  | Outcomes.undefined => Argument.undefined
  | Outcomes.map m => Argument.map m
  | Outcomes.array pairs => Argument.array (pairs.map some)
  | Outcomes.other => Argument.other

/-- The call `new Map(array)` (lines 54 and 57), continued from the map built so far: an
element that is an object adds the entry `[element[0], element[1]]`, an element that is
not an object (`none`) makes the call throw a `TypeError`. -/
def assess.newMap : List (Option (Option String × Value)) → JSMap Value →
    Except JSError (JSMap Value)
  | [], m => Except.ok m
  | none :: _, _ => Except.error JSError.typeError
  | some e :: rest, m => assess.newMap rest (m.set e.1 e.2)

/-- The normalisation of one argument of `assess` (lines 52-58): the default `new Map()`
for `undefined`, and `new Map(array)` for an `Array`. Nothing else is tested: a value
that is not an `Array` is kept as it is. -/
def assess.normalise : Argument → Except JSError Argument
  | Argument.undefined => Except.ok (Argument.map [])
  | Argument.map m => Except.ok (Argument.map m)
  | Argument.array items =>
    match assess.newMap items [] with
    | Except.error e => Except.error e
    | Except.ok m => Except.ok (Argument.map m)
  | Argument.set elements => Except.ok (Argument.set elements)
  | Argument.other => Except.ok Argument.other

/-- The call `this._effects(type, outcomes, effect)` made by `assess` (lines 70-71), on a
value of any shape. On a `Map` it is `_effects`. A `Set` has the method `has` and no
method `get`: when it does not hold `undefined` the test of line 83 is false and the
result is 0; when it holds `undefined`, `outcomes.get` is not a function and line 85
throws a `TypeError`. On a value without a method `has` (an `Array` and `undefined`
included) line 83 throws a `TypeError`. -/
def assess.effects (type : Option String) (outcomes : Argument) (effect : String) :
    Except JSError Value :=
  match outcomes with
  | Argument.map m => Except.ok (_effects type m effect)
  | Argument.set elements =>
    if elements.contains none then Except.error JSError.typeError
    else Except.ok (Value.num 0)
  | Argument.array _ => Except.error JSError.typeError
  | Argument.undefined => Except.error JSError.typeError
  | Argument.other => Except.error JSError.typeError

/-- The loop `this.conditionsMap.forEach` of `assess` (lines 63-74) over the entries of
the map, in insertion order. Each visit touches the entry of its own key only, so every
entry is visited with the value it had when the loop began. The result is the instance
as the loop leaves it, with the list of events or the error thrown. `Costs_weight` is
`Costs.weight` of `../Utils` and `age` the value of the getter `this.age`. -/
def assess.forEach (Costs_weight : Value → Value → Value → Option (List (String × Condition)) → Value)
    (age : Value) (positive negative : Argument) :
    List (Option String × Condition) → Conditions → List EmergingEvent →
      Conditions × Except JSError (List EmergingEvent)
  | [], self, emergingEvents => (self, Except.ok emergingEvents)
  | (key, condition) :: rest, self, emergingEvents =>
    let type := condition.type
    match condition.progression with
    | none => (self, Except.error JSError.typeError)
    | some progression =>
      let natural := Costs_weight progression.rate progression.weight age self.conditions
      match assess.effects type positive "positive" with
      | Except.error e => (self, Except.error e)
      | Except.ok beneficial =>
        match assess.effects type negative "negative" with
        | Except.error e => (self, Except.error e)
        | Except.ok harmful =>
          match self._update key [natural, beneficial, harmful] with
          | Except.error e => (self, Except.error e)
          | Except.ok r =>
            assess.forEach Costs_weight age positive negative rest r.1 (emergingEvents ++ r.2)

/-- The method `assess(positive, negative)` (lines 52-78): the instance as the call
leaves it, with the returned list of events or the error thrown. -/
def assess (Costs_weight : Value → Value → Value → Option (List (String × Condition)) → Value)
    (age : Value) (self : Conditions) (positive negative : Argument) :
    Conditions × Except JSError (List EmergingEvent) :=
  match assess.normalise positive with
  | Except.error e => (self, Except.error e)
  | Except.ok positive =>
    match assess.normalise negative with
    | Except.error e => (self, Except.error e)
    | Except.ok negative =>
      match self.conditionsMap with
      | none => (self, Except.error JSError.typeError)
      | some m => assess.forEach Costs_weight age positive negative m self []

end Conditions

/-! ## Lemmas on the map operations -/

namespace JSMap

variable {α : Type}

theorem get_set_self (m : JSMap α) (k : Option String) (v : α) :
    (m.set k v).get k = some v := by
  induction m with
  | nil => simp [JSMap.set, JSMap.get]
  | cons e m ih =>
    obtain ⟨k', v'⟩ := e
    by_cases h : k' = k
    · simp [JSMap.set, JSMap.get, h]
    · simp only [JSMap.set, if_neg h]
      simpa [JSMap.get, h] using ih

theorem has_set_self (m : JSMap α) (k : Option String) (v : α) :
    (m.set k v).has k = true := by
  induction m with
  | nil => simp [JSMap.set, JSMap.has]
  | cons e m ih =>
    obtain ⟨k', v'⟩ := e
    by_cases h : k' = k
    · simp [JSMap.set, JSMap.has, h]
    · simp only [JSMap.set, if_neg h]
      simpa [JSMap.has, h] using ih

theorem get_set_of_ne (m : JSMap α) (k k' : Option String) (v : α) (h : k' ≠ k) :
    (m.set k v).get k' = m.get k' := by
  induction m with
  | nil =>
    have h' : ¬ k = k' := fun e => h e.symm
    simp [JSMap.set, JSMap.get, h']
  | cons e m ih =>
    obtain ⟨k1, v1⟩ := e
    by_cases h1 : k1 = k
    · have h2 : ¬ k1 = k' := fun e => h (e.symm.trans h1)
      have h3 : ¬ k = k' := fun e => h e.symm
      simp [JSMap.set, JSMap.get, h1, h3]
    · simp only [JSMap.set, if_neg h1]
      by_cases h2 : k1 = k'
      · simp [JSMap.get, h2]
      · simpa [JSMap.get, h2] using ih

theorem get_delete_of_ne (m : JSMap α) (k k' : Option String) (h : k' ≠ k) :
    (m.delete k).get k' = m.get k' := by
  have hf : (fun a : Option String × α =>
        decide (decide (a.1 ≠ k) = true ∧ decide (a.1 = k') = true))
      = fun a => decide (a.1 = k') := by
    funext a
    by_cases h1 : a.1 = k'
    · have h2 : a.1 ≠ k := fun e => h (h1.symm.trans e)
      simp [h1, h2, h]
    · simp [h1]
  unfold JSMap.delete JSMap.get
  rw [List.find?_filter, hf]

theorem has_delete_self (m : JSMap α) (k : Option String) :
    (m.delete k).has k = false := by
  simp [JSMap.has, JSMap.delete]

theorem get_delete_self (m : JSMap α) (k : Option String) :
    (m.delete k).get k = none := by
  simp [JSMap.get, JSMap.delete, List.find?_eq_none]

end JSMap

/-! ## The overflow / escalation handler `_checkAndSave` -/

namespace Conditions

/-- The removal branch (lines 123-126). -/
theorem checkAndSave_of_removed (self : Conditions) (m : JSMap Condition)
    (key : Option String) (c : Condition) (u : Value)
    (hm : self.conditionsMap = some m) (hd : c.duration = some "temporary")
    (hw : Value.le c.weight (Value.num 0) = true) :
    self._checkAndSave key c u
      = Except.ok ({ self with conditionsMap := some (m.delete key) }, []) := by
  unfold _checkAndSave
  rw [if_pos ⟨hd, hw⟩, hm]

/-- The overflow branch (lines 130-148). -/
theorem checkAndSave_of_overflow (self : Conditions) (m : JSMap Condition)
    (key : Option String) (c : Condition) (u : Value)
    (hm : self.conditionsMap = some m)
    (hkeep : ¬ (c.duration = some "temporary" ∧ Value.le c.weight (Value.num 0) = true))
    (hgt : Value.gt (Value.add c.weight u) (Value.num 1) = true) :
    self._checkAndSave key c u
      = Except.ok
          ({ self with conditionsMap := some (m.set key
              (if c.duration = some "chronic" then
                { c with duration := some "permanent", weight := Value.add c.weight u }
              else if c.duration = some "temporary" then
                { c with duration := some "chronic", weight := Value.add (Value.num 1) u }
              else
                { c with weight := Value.add (Value.num 1) u })) },
           [{ type := c.type, weight := Value.sub (Value.add c.weight u) (Value.num 1) }]) := by
  unfold _checkAndSave
  rw [if_neg hkeep, hm]
  simp only [hgt, if_true]
  split_ifs <;> rfl

/-- The branch without overflow (lines 145-149). -/
theorem checkAndSave_of_no_overflow (self : Conditions) (m : JSMap Condition)
    (key : Option String) (c : Condition) (u : Value)
    (hm : self.conditionsMap = some m)
    (hkeep : ¬ (c.duration = some "temporary" ∧ Value.le c.weight (Value.num 0) = true))
    (hgt : ¬ (Value.gt (Value.add c.weight u) (Value.num 1) = true)) :
    self._checkAndSave key c u
      = Except.ok
          ({ self with conditionsMap := some (m.set key
              { c with weight := Value.add c.weight u }) }, []) := by
  unfold _checkAndSave
  rw [if_neg hkeep, hm]
  have hgt' : Value.gt (Value.add c.weight u) (Value.num 1) = false := by simpa using hgt
  simp only [hgt', Bool.false_eq_true, if_false]

/-- C1 (the code at the failing input). Scenario B: a permanent condition of weight
9/10 receives the applied delta 3/10. The sum exceeds 1, the weight is set to 1 and the
delta is then added to it again by `condition.weight += update`: the condition stored
back under its key has weight 13/10, not 1. -/
theorem checkAndSave_overflow_stores_above_one :
    _checkAndSave
        { conditionsMap := some [(some "addiction",
            { label := some "addiction", type := some "dependent",
              duration := some "permanent", weight := Value.num (9/10),
              progression := none })],
          conditions := none }
        (some "addiction")
        { label := some "addiction", type := some "dependent",
          duration := some "permanent", weight := Value.num (9/10), progression := none }
        (Value.num (3/10))
      = Except.ok
        ({ conditionsMap := some [(some "addiction",
            { label := some "addiction", type := some "dependent",
              duration := some "permanent", weight := Value.num (13/10),
              progression := none })],
           conditions := none },
         [{ type := some "dependent", weight := Value.num (1/5) }]) := by
  simp [_checkAndSave, Value.le, Value.gt, Value.add, Value.sub, JSMap.set]
  norm_num

/-- C2. When the instance holds a map and the condition, of numeric weight `w` and type
`c.type`, is not removed (it is not a temporary condition with `w ≤ 0`), a numeric
applied delta `d` makes `_checkAndSave` return exactly the one event
`{type: c.type, weight: w + d - 1}` when `w + d > 1`, and no event when `w + d ≤ 1`. -/
theorem checkAndSave_events (self : Conditions) (m : JSMap Condition) (key : Option String)
    (c : Condition) (w d : ℚ)
    (hm : self.conditionsMap = some m) (hw : c.weight = Value.num w)
    (hkeep : ¬ (c.duration = some "temporary" ∧ w ≤ 0)) :
    (w + d > 1 →
      Except.map Prod.snd (self._checkAndSave key c (Value.num d))
        = Except.ok [{ type := c.type, weight := Value.num (w + d - 1) }]) ∧
    (w + d ≤ 1 →
      Except.map Prod.snd (self._checkAndSave key c (Value.num d)) = Except.ok []) := by
  have h1 : ¬ (c.duration = some "temporary" ∧ Value.le c.weight (Value.num 0) = true) := by
    rw [hw]; simpa [Value.le] using hkeep
  constructor
  · intro h
    have h2 : Value.gt (Value.add c.weight (Value.num d)) (Value.num 1) = true := by
      rw [hw]; simpa [Value.gt, Value.add] using h
    rw [checkAndSave_of_overflow self m key c _ hm h1 h2, hw]
    rfl
  · intro h
    have h2 : ¬ (Value.gt (Value.add c.weight (Value.num d)) (Value.num 1) = true) := by
      rw [hw]; simpa [Value.gt, Value.add] using h
    rw [checkAndSave_of_no_overflow self m key c _ hm h1 h2]
    rfl

/-- Witness of C2: a permanent condition of weight 9/10 with the delta 3/10, which
overflows, and with the delta 1/20, which does not. -/
theorem checkAndSave_events_witness :
    ((9/10 : ℚ) + 3/10 > 1 ∧
      Except.map Prod.snd
        (_checkAndSave { conditionsMap := some [], conditions := none } (some "addiction")
          { label := some "addiction", type := some "dependent",
            duration := some "permanent", weight := Value.num (9/10), progression := none }
          (Value.num (3/10)))
        = Except.ok [{ type := some "dependent", weight := Value.num (9/10 + 3/10 - 1) }]) ∧
    ((9/10 : ℚ) + 1/20 ≤ 1 ∧
      Except.map Prod.snd
        (_checkAndSave { conditionsMap := some [], conditions := none } (some "addiction")
          { label := some "addiction", type := some "dependent",
            duration := some "permanent", weight := Value.num (9/10), progression := none }
          (Value.num (1/20)))
        = Except.ok []) :=
  ⟨⟨by norm_num,
    (checkAndSave_events { conditionsMap := some [], conditions := none } []
      (some "addiction")
      { label := some "addiction", type := some "dependent",
        duration := some "permanent", weight := Value.num (9/10), progression := none }
      (9/10) (3/10) rfl rfl (by simp)).1 (by norm_num)⟩,
   ⟨by norm_num,
    (checkAndSave_events { conditionsMap := some [], conditions := none } []
      (some "addiction")
      { label := some "addiction", type := some "dependent",
        duration := some "permanent", weight := Value.num (9/10), progression := none }
      (9/10) (1/20) rfl rfl (by simp)).2 (by norm_num)⟩⟩

/-- C3 (the claim as stated fails). A temporary condition of weight 2/5 receives the
applied delta -1/2: the resulting weight 2/5 + (-1/2) is `≤ 0`, yet the removal test
reads the weight before the delta is added, so the condition is stored back with weight
-1/10, its key is still in the map and the status snapshot still lists it. -/
theorem checkAndSave_temporary_kept_counterexample :
    (2/5 : ℚ) + (-1/2) ≤ 0 ∧
    _checkAndSave
        { conditionsMap := some [(some "stress",
            { label := some "stress", type := some "behavioral",
              duration := some "temporary", weight := Value.num (2/5),
              progression := none })],
          conditions := none }
        (some "stress")
        { label := some "stress", type := some "behavioral",
          duration := some "temporary", weight := Value.num (2/5), progression := none }
        (Value.num (-1/2))
      = Except.ok
        ({ conditionsMap := some [(some "stress",
            { label := some "stress", type := some "behavioral",
              duration := some "temporary", weight := Value.num (-1/10),
              progression := none })],
           conditions := none }, []) ∧
    JSMap.has [(some "stress",
        ({ label := some "stress", type := some "behavioral",
           duration := some "temporary", weight := Value.num (-1/10),
           progression := none } : Condition))] (some "stress") = true ∧
    status
        { conditionsMap := some [(some "stress",
            { label := some "stress", type := some "behavioral",
              duration := some "temporary", weight := Value.num (-1/10),
              progression := none })],
          conditions := none }
      = Except.ok
        [{ label := some "stress", type := some "behavioral",
           duration := some "temporary", weight := Value.num (-1/10),
           progression := none }] := by
  refine ⟨by norm_num, ?_, by decide, rfl⟩
  simp [_checkAndSave, Value.le, Value.gt, Value.add, JSMap.set]
  norm_num

/-- C3 (amended). A temporary condition of numeric weight `w` is removed by
`_checkAndSave` exactly when the weight stored before the delta is applied is `≤ 0`:
if `w ≤ 0`, then whatever the applied delta the call returns no event, the key is absent
from the map afterwards and the status snapshot lists the values of the other keys only;
if `0 < w`, the call stores a condition under the key, which the map then has. -/
theorem checkAndSave_temporary_removal (self : Conditions) (m : JSMap Condition)
    (key : Option String) (c : Condition) (w : ℚ) (u : Value)
    (hm : self.conditionsMap = some m) (hd : c.duration = some "temporary")
    (hw : c.weight = Value.num w) :
    (w ≤ 0 →
      self._checkAndSave key c u
        = Except.ok ({ self with conditionsMap := some (m.delete key) }, []) ∧
      (m.delete key).has key = false ∧
      status { self with conditionsMap := some (m.delete key) }
        = Except.ok ((m.filter (fun e => decide (e.1 ≠ key))).map Prod.snd)) ∧
    (0 < w →
      ∃ c' evs,
        self._checkAndSave key c u
          = Except.ok ({ self with conditionsMap := some (m.set key c') }, evs) ∧
        (m.set key c').has key = true) := by
  constructor
  · intro hle
    have h0 : Value.le c.weight (Value.num 0) = true := by
      rw [hw]; simpa [Value.le] using hle
    exact ⟨checkAndSave_of_removed self m key c u hm hd h0, JSMap.has_delete_self m key, rfl⟩
  · intro hpos
    have hkeep : ¬ (c.duration = some "temporary" ∧ Value.le c.weight (Value.num 0) = true) := by
      rw [hw]; simpa [Value.le] using fun _ => hpos
    by_cases hgt : Value.gt (Value.add c.weight u) (Value.num 1) = true
    · exact ⟨_, _, checkAndSave_of_overflow self m key c u hm hkeep hgt,
        JSMap.has_set_self m key _⟩
    · exact ⟨_, _, checkAndSave_of_no_overflow self m key c u hm hkeep hgt,
        JSMap.has_set_self m key _⟩

/-- Witness of C3 (amended): a temporary condition of weight 0 and one of weight 2/5. -/
theorem checkAndSave_temporary_removal_witness :
    (_checkAndSave
        { conditionsMap := some [(some "stress",
            { label := some "stress", type := some "behavioral",
              duration := some "temporary", weight := Value.num 0, progression := none })],
          conditions := none }
        (some "stress")
        { label := some "stress", type := some "behavioral",
          duration := some "temporary", weight := Value.num 0, progression := none }
        (Value.num (-1/2))
      = Except.ok ({ conditionsMap := some [], conditions := none }, [])) ∧
    (∃ c' evs,
      _checkAndSave { conditionsMap := some [], conditions := none } (some "stress")
          { label := some "stress", type := some "behavioral",
            duration := some "temporary", weight := Value.num (2/5), progression := none }
          (Value.num (-1/2))
        = Except.ok ({ conditionsMap := some (JSMap.set [] (some "stress") c'),
                       conditions := none }, evs) ∧
      (JSMap.set [] (some "stress") c').has (some "stress") = true) :=
  ⟨((checkAndSave_temporary_removal
      { conditionsMap := some [(some "stress",
          { label := some "stress", type := some "behavioral",
            duration := some "temporary", weight := Value.num 0, progression := none })],
        conditions := none }
      [(some "stress",
          { label := some "stress", type := some "behavioral",
            duration := some "temporary", weight := Value.num 0, progression := none })]
      (some "stress")
      { label := some "stress", type := some "behavioral",
        duration := some "temporary", weight := Value.num 0, progression := none }
      0 (Value.num (-1/2)) rfl rfl rfl).1 (le_refl 0)).1,
   (checkAndSave_temporary_removal { conditionsMap := some [], conditions := none } []
      (some "stress")
      { label := some "stress", type := some "behavioral",
        duration := some "temporary", weight := Value.num (2/5), progression := none }
      (2/5) (Value.num (-1/2)) rfl rfl rfl).2 (by norm_num)⟩

/-! ## The outcome lookup `_effects` -/

/-- C4 (the code at the failing input). The outcome collection holds the entry
`behavioral -> 1/2` and the causal type is `behavioral`, yet `_effects` returns 0 for
the effect `'positive'` (the claim says -1/2) and 0 for the effect `'negative'` (the
claim says 1/2): the key it tests is `effect.type`, which is `undefined`. -/
theorem effects_ignores_matching_entry :
    _effects (some "behavioral") [(some "behavioral", Value.num (1/2))] "positive"
      = Value.num 0 ∧
    _effects (some "behavioral") [(some "behavioral", Value.num (1/2))] "negative"
      = Value.num 0 := by
  constructor <;> decide

/-! ## The accumulation reducer of `_update` -/

/-- C5 (the code at the failing input). For a permanent condition the single worsening
delta 3/10 is discarded, the reducer yielding 0 (the claim says 3/10); with the deltas
1/10, 0 and 3/10 the reducer yields `undefined` (the claim says 2/5). -/
theorem update_permanent_never_accumulates :
    _update.update (some "permanent") [Value.num (3/10)] = Value.num 0 ∧
    _update.update (some "permanent") [Value.num (1/10), Value.num 0, Value.num (3/10)]
      = Value.undefined := by
  constructor <;> simp [_update.update, _update.reducer, Value.lt, Value.gt]

/-- C6 (the code at the failing input). For a temporary condition the single healing
delta -1/5 makes the reducer yield `undefined` (the claim says -1/5), and so do the
deltas 1/10, -1/2 and 0 (the claim says -1/2). -/
theorem update_temporary_never_accumulates :
    _update.update (some "temporary") [Value.num (-1/5)] = Value.undefined ∧
    _update.update (some "temporary") [Value.num (1/10), Value.num (-1/2), Value.num 0]
      = Value.undefined := by
  constructor <;> simp [_update.update, _update.reducer, Value.gt]

/-- On numeric deltas the chronic reducer adds each delta to the accumulator. -/
theorem foldl_reducer_chronic (ds : List ℚ) (a : ℚ) :
    List.foldl (_update.reducer (some "chronic")) (Value.num a) (ds.map Value.num)
      = Value.num (a + ds.sum) := by
  induction ds generalizing a with
  | nil => simp
  | cons d ds ih =>
    have hstep : _update.reducer (some "chronic") (Value.num a) (Value.num d)
        = Value.num (a + d) := by
      simp [_update.reducer, Value.add]
    simp only [List.map_cons, List.foldl_cons, List.sum_cons, hstep, ih]
    rw [add_assoc]

/-- C7. For a chronic condition and every list of numeric deltas, the applied delta
computed by the reducer of `_update` is the plain sum of all the deltas. -/
theorem update_chronic_sum (ds : List ℚ) :
    _update.update (some "chronic") (ds.map Value.num) = Value.num ds.sum := by
  unfold _update.update
  rw [foldl_reducer_chronic ds 0, zero_add]

/-! ## Duration classes -/

/-- C8 (the claim as stated fails over ticks of `assess`). A chronic condition of weight
9/10 is held by `this.conditions` and by the map; the natural delta is the progression
weight 3/10 while the age is below 40 and 0 from then on. The first tick (age 30) adds
3/10, overflows and stores the duration `permanent` (index 2) with one event; the second
tick (age 40) starts again from `this.conditions[key]`, which line 93 reads and nothing
writes, and stores the duration `chronic` (index 1): the stored duration has regressed. -/
theorem assess_duration_regresses_counterexample :
    assess (fun _ weight age _ => if Value.lt age (Value.num 40) then weight else Value.num 0)
        (Value.num 30)
        { conditionsMap := some [(some "fatigue",
            { label := some "fatigue", type := some "behavioral",
              duration := some "chronic", weight := Value.num (9/10),
              progression := some { rate := Value.num 1, weight := Value.num (3/10) } })],
          conditions := some [("fatigue",
            { label := some "fatigue", type := some "behavioral",
              duration := some "chronic", weight := Value.num (9/10),
              progression := some { rate := Value.num 1, weight := Value.num (3/10) } })] }
        Argument.undefined Argument.undefined
      = ({ conditionsMap := some [(some "fatigue",
            { label := some "fatigue", type := some "behavioral",
              duration := some "permanent", weight := Value.num (6/5),
              progression := some { rate := Value.num 1, weight := Value.num (3/10) } })],
           conditions := some [("fatigue",
            { label := some "fatigue", type := some "behavioral",
              duration := some "chronic", weight := Value.num (9/10),
              progression := some { rate := Value.num 1, weight := Value.num (3/10) } })] },
         Except.ok [{ type := some "behavioral", weight := Value.num (1/5) }]) ∧
    assess (fun _ weight age _ => if Value.lt age (Value.num 40) then weight else Value.num 0)
        (Value.num 40)
        { conditionsMap := some [(some "fatigue",
            { label := some "fatigue", type := some "behavioral",
              duration := some "permanent", weight := Value.num (6/5),
              progression := some { rate := Value.num 1, weight := Value.num (3/10) } })],
          conditions := some [("fatigue",
            { label := some "fatigue", type := some "behavioral",
              duration := some "chronic", weight := Value.num (9/10),
              progression := some { rate := Value.num 1, weight := Value.num (3/10) } })] }
        Argument.undefined Argument.undefined
      = ({ conditionsMap := some [(some "fatigue",
            { label := some "fatigue", type := some "behavioral",
              duration := some "chronic", weight := Value.num (9/10),
              progression := some { rate := Value.num 1, weight := Value.num (3/10) } })],
           conditions := some [("fatigue",
            { label := some "fatigue", type := some "behavioral",
              duration := some "chronic", weight := Value.num (9/10),
              progression := some { rate := Value.num 1, weight := Value.num (3/10) } })] },
         Except.ok []) ∧
    durationIndex (some "permanent") = some 2 ∧
    durationIndex (some "chronic") = some 1 := by
  refine ⟨?_, ?_, by decide, by decide⟩
  · simp [assess, assess.normalise, assess.forEach, assess.effects, _effects, JSMap.has,
      _update, _update.update, _update.reducer, propertyName, _checkAndSave,
      Value.lt, Value.gt, Value.le, Value.add, Value.sub, JSMap.set]
    norm_num
  · simp [assess, assess.normalise, assess.forEach, assess.effects, _effects, JSMap.has,
      _update, _update.update, _update.reducer, propertyName, _checkAndSave,
      Value.lt, Value.gt, Value.le, Value.add, JSMap.set]
    norm_num

/-- C8 (amended). With the order temporary < chronic < permanent given by
`durationIndex`: for every instance holding a map, every condition whose duration is one
of the three classes (of index `i`) and every applied delta, numeric or not,
`_checkAndSave` returns; it removes the key when the condition is temporary with a weight
`≤ 0`, and in every other case it stores under the key a condition whose duration has an
index `j ≥ i`. -/
theorem checkAndSave_duration_monotone (self : Conditions) (m : JSMap Condition)
    (key : Option String) (c : Condition) (u : Value) (i : Nat)
    (hm : self.conditionsMap = some m) (hi : durationIndex c.duration = some i) :
    (c.duration = some "temporary" ∧ Value.le c.weight (Value.num 0) = true →
      self._checkAndSave key c u
        = Except.ok ({ self with conditionsMap := some (m.delete key) }, [])) ∧
    (¬ (c.duration = some "temporary" ∧ Value.le c.weight (Value.num 0) = true) →
      ∃ c' evs j,
        self._checkAndSave key c u
          = Except.ok ({ self with conditionsMap := some (m.set key c') }, evs) ∧
        (m.set key c').get key = some c' ∧
        durationIndex c'.duration = some j ∧ i ≤ j) := by
  constructor
  · intro hrem
    exact checkAndSave_of_removed self m key c u hm hrem.1 hrem.2
  · intro hrem
    by_cases hgt : Value.gt (Value.add c.weight u) (Value.num 1) = true
    · by_cases h1 : c.duration = some "chronic"
      · have hi1 : i = 1 := by
          rw [h1] at hi
          simpa [durationIndex] using hi.symm
        refine ⟨_, _, 2, checkAndSave_of_overflow self m key c u hm hrem hgt,
          JSMap.get_set_self m key _, ?_, by omega⟩
        simp [h1, durationIndex]
      · by_cases h2 : c.duration = some "temporary"
        · have hi0 : i = 0 := by
            rw [h2] at hi
            simpa [durationIndex] using hi.symm
          refine ⟨_, _, 1, checkAndSave_of_overflow self m key c u hm hrem hgt,
            JSMap.get_set_self m key _, ?_, by omega⟩
          simp [h1, h2, durationIndex]
        · refine ⟨_, _, i, checkAndSave_of_overflow self m key c u hm hrem hgt,
            JSMap.get_set_self m key _, ?_, le_refl i⟩
          simp [h1, h2, hi]
    · exact ⟨_, _, i, checkAndSave_of_no_overflow self m key c u hm hrem hgt,
        JSMap.get_set_self m key _, hi, le_refl i⟩

/-- Witness of C8 (amended): a chronic condition of weight 9/10 with the delta 3/10 is
stored with a duration of index at least 1. -/
theorem checkAndSave_duration_monotone_witness :
    ∃ c' evs j,
      _checkAndSave { conditionsMap := some [], conditions := none } (some "fatigue")
          { label := some "fatigue", type := some "behavioral",
            duration := some "chronic", weight := Value.num (9/10),
            progression := none }
          (Value.num (3/10))
        = Except.ok ({ conditionsMap := some (JSMap.set [] (some "fatigue") c'),
                       conditions := none }, evs) ∧
      (JSMap.set [] (some "fatigue") c').get (some "fatigue") = some c' ∧
      durationIndex c'.duration = some j ∧ 1 ≤ j :=
  (checkAndSave_duration_monotone { conditionsMap := some [], conditions := none } []
    (some "fatigue")
    { label := some "fatigue", type := some "behavioral",
      duration := some "chronic", weight := Value.num (9/10),
      progression := none }
    (Value.num (3/10)) 1 rfl (by decide)).2 (by simp)

/-! ## Weights stored by `_update` -/

/-- C9 (the code at the failing input). A permanent condition of weight 9/10 is held by
`this.conditions` and by the map; `_update` receives the deltas 1/10 (natural), 0 and 0
(no outcome). The reducer yields `undefined`, so `_checkAndSave` stores the weight
`NaN`, which is not a number `≥ 9/10`. On an instance whose `this.conditions` is
`undefined` the same call throws a `TypeError` and stores nothing. -/
theorem update_permanent_stores_nan :
    _update
        { conditionsMap := some [(some "addiction",
            { label := some "addiction", type := some "dependent",
                duration := some "permanent", weight := Value.num (9/10), progression := none })],
          conditions := some [("addiction",
            { label := some "addiction", type := some "dependent",
                duration := some "permanent", weight := Value.num (9/10), progression := none })] }
        (some "addiction") [Value.num (1/10), Value.num 0, Value.num 0]
      = Except.ok
        ({ conditionsMap := some [(some "addiction",
            { label := some "addiction", type := some "dependent",
                duration := some "permanent", weight := Value.nan, progression := none })],
           conditions := some [("addiction",
            { label := some "addiction", type := some "dependent",
                duration := some "permanent", weight := Value.num (9/10), progression := none })] }, []) ∧
    _update
        { conditionsMap := some [(some "addiction",
            { label := some "addiction", type := some "dependent",
                duration := some "permanent", weight := Value.num (9/10), progression := none })],
          conditions := none }
        (some "addiction") [Value.num (1/10), Value.num 0, Value.num 0]
      = Except.error JSError.typeError := by
  constructor
  · simp [_update, _update.update, _update.reducer, propertyName, _checkAndSave,
      Value.lt, Value.gt, Value.le, Value.add, JSMap.set]
  · rfl

/-- C10 (the code at the failing input). A temporary condition of weight 2/5 is held by
`this.conditions` and by the map; `_update` receives the deltas -1/10 (natural), 0 and 0
(no outcome). The reducer yields `undefined`, so the condition is not removed and
`_checkAndSave` stores the weight `NaN`, which is not a number `≤ 2/5`. On an instance
whose `this.conditions` is `undefined` the same call throws a `TypeError`. -/
theorem update_temporary_stores_nan :
    _update
        { conditionsMap := some [(some "stress",
            { label := some "stress", type := some "behavioral",
                duration := some "temporary", weight := Value.num (2/5), progression := none })],
          conditions := some [("stress",
            { label := some "stress", type := some "behavioral",
                duration := some "temporary", weight := Value.num (2/5), progression := none })] }
        (some "stress") [Value.num (-1/10), Value.num 0, Value.num 0]
      = Except.ok
        ({ conditionsMap := some [(some "stress",
            { label := some "stress", type := some "behavioral",
                duration := some "temporary", weight := Value.nan, progression := none })],
           conditions := some [("stress",
            { label := some "stress", type := some "behavioral",
                duration := some "temporary", weight := Value.num (2/5), progression := none })] }, []) ∧
    _update
        { conditionsMap := some [(some "stress",
            { label := some "stress", type := some "behavioral",
                duration := some "temporary", weight := Value.num (2/5), progression := none })],
          conditions := none }
        (some "stress") [Value.num (-1/10), Value.num 0, Value.num 0]
      = Except.error JSError.typeError := by
  constructor
  · simp [_update, _update.update, _update.reducer, propertyName, _checkAndSave,
      Value.gt, Value.le, Value.add, JSMap.set]
  · rfl

/-! ## Chronic conditions, escalation and the update without overflow -/

/-- C11. For every instance holding a map, every chronic condition and every applied
delta (numeric of either sign, or not a number), `_checkAndSave` returns and stores a
condition under the key: the key is still present in the map afterwards. -/
theorem checkAndSave_chronic_kept (self : Conditions) (m : JSMap Condition)
    (key : Option String) (c : Condition) (u : Value)
    (hm : self.conditionsMap = some m) (hd : c.duration = some "chronic") :
    ∃ c' evs,
      self._checkAndSave key c u
        = Except.ok ({ self with conditionsMap := some (m.set key c') }, evs) ∧
      (m.set key c').has key = true := by
  have hkeep : ¬ (c.duration = some "temporary" ∧ Value.le c.weight (Value.num 0) = true) := by
    rw [hd]; simp
  by_cases hgt : Value.gt (Value.add c.weight u) (Value.num 1) = true
  · exact ⟨_, _, checkAndSave_of_overflow self m key c u hm hkeep hgt,
      JSMap.has_set_self m key _⟩
  · exact ⟨_, _, checkAndSave_of_no_overflow self m key c u hm hkeep hgt,
      JSMap.has_set_self m key _⟩

/-- Witness of C11: a chronic condition of weight 1/2 with the delta -1, which takes the
weight below 0. -/
theorem checkAndSave_chronic_kept_witness :
    ∃ c' evs,
      _checkAndSave { conditionsMap := some [], conditions := none } (some "fatigue")
          { label := some "fatigue", type := some "behavioral",
            duration := some "chronic", weight := Value.num (1/2), progression := none }
          (Value.num (-1))
        = Except.ok ({ conditionsMap := some (JSMap.set [] (some "fatigue") c'),
                       conditions := none }, evs) ∧
      (JSMap.set [] (some "fatigue") c').has (some "fatigue") = true :=
  checkAndSave_chronic_kept { conditionsMap := some [], conditions := none } []
    (some "fatigue")
    { label := some "fatigue", type := some "behavioral",
      duration := some "chronic", weight := Value.num (1/2), progression := none }
    (Value.num (-1)) rfl rfl

/-- C14. For every instance holding a map and every condition of numeric weight `w` that
is not removed, a numeric applied delta `d` with `w + d > 1` makes `_checkAndSave` store
under the key a condition whose duration is `chronic` if it was `temporary`, `permanent`
if it was `chronic`, and `permanent` if it was `permanent`. -/
theorem checkAndSave_escalation (self : Conditions) (m : JSMap Condition)
    (key : Option String) (c : Condition) (w d : ℚ)
    (hm : self.conditionsMap = some m) (hw : c.weight = Value.num w)
    (hkeep : ¬ (c.duration = some "temporary" ∧ w ≤ 0)) (hgt : w + d > 1) :
    ∃ c' evs,
      self._checkAndSave key c (Value.num d)
        = Except.ok ({ self with conditionsMap := some (m.set key c') }, evs) ∧
      (m.set key c').get key = some c' ∧
      (c.duration = some "temporary" → c'.duration = some "chronic") ∧
      (c.duration = some "chronic" → c'.duration = some "permanent") ∧
      (c.duration = some "permanent" → c'.duration = some "permanent") := by
  have h1 : ¬ (c.duration = some "temporary" ∧ Value.le c.weight (Value.num 0) = true) := by
    rw [hw]; simpa [Value.le] using hkeep
  have h2 : Value.gt (Value.add c.weight (Value.num d)) (Value.num 1) = true := by
    rw [hw]; simpa [Value.gt, Value.add] using hgt
  refine ⟨_, _, checkAndSave_of_overflow self m key c _ hm h1 h2,
    JSMap.get_set_self m key _, ?_, ?_, ?_⟩
  · intro h; simp [h]
  · intro h; simp [h]
  · intro h; simp [h]

/-- Witness of C14: a chronic condition of weight 9/10 with the delta 3/10. -/
theorem checkAndSave_escalation_witness :
    ∃ c' evs,
      _checkAndSave { conditionsMap := some [], conditions := none } (some "fatigue")
          { label := some "fatigue", type := some "behavioral",
            duration := some "chronic", weight := Value.num (9/10), progression := none }
          (Value.num (3/10))
        = Except.ok ({ conditionsMap := some (JSMap.set [] (some "fatigue") c'),
                       conditions := none }, evs) ∧
      (JSMap.set [] (some "fatigue") c').get (some "fatigue") = some c' ∧
      c'.duration = some "permanent" := by
  obtain ⟨c', evs, h1, h2, _, h4, _⟩ :=
    checkAndSave_escalation { conditionsMap := some [], conditions := none } []
      (some "fatigue")
      { label := some "fatigue", type := some "behavioral",
        duration := some "chronic", weight := Value.num (9/10), progression := none }
      (9/10) (3/10) rfl rfl (by simp) (by norm_num)
  exact ⟨c', evs, h1, h2, h4 rfl⟩

/-- C15. For every instance holding a map and every condition of numeric weight `w` that
is not removed, a numeric applied delta `d` with `w + d ≤ 1` makes `_checkAndSave` return
no event and store under the key the condition with weight `w + d`, its duration and
every other field unchanged. -/
theorem checkAndSave_plain_update (self : Conditions) (m : JSMap Condition)
    (key : Option String) (c : Condition) (w d : ℚ)
    (hm : self.conditionsMap = some m) (hw : c.weight = Value.num w)
    (hkeep : ¬ (c.duration = some "temporary" ∧ w ≤ 0)) (hle : w + d ≤ 1) :
    self._checkAndSave key c (Value.num d)
      = Except.ok
        ({ self with
            conditionsMap := some (m.set key { c with weight := Value.num (w + d) }) },
         []) ∧
    (m.set key { c with weight := Value.num (w + d) }).get key
      = some { c with weight := Value.num (w + d) } := by
  have h1 : ¬ (c.duration = some "temporary" ∧ Value.le c.weight (Value.num 0) = true) := by
    rw [hw]; simpa [Value.le] using hkeep
  have h2 : ¬ (Value.gt (Value.add c.weight (Value.num d)) (Value.num 1) = true) := by
    rw [hw]; simpa [Value.gt, Value.add] using hle
  refine ⟨?_, JSMap.get_set_self m key _⟩
  rw [checkAndSave_of_no_overflow self m key c _ hm h1 h2, hw]
  rfl

/-- Witness of C15 (Scenario C): a chronic condition of weight 1/2 with the delta 1/10 is
stored with weight 1/2 + 1/10, still chronic, and no event is returned. -/
theorem checkAndSave_plain_update_witness :
    _checkAndSave
        { conditionsMap := some [(some "fatigue",
            { label := some "fatigue", type := some "behavioral",
              duration := some "chronic", weight := Value.num (1/2), progression := none })],
          conditions := none }
        (some "fatigue")
        { label := some "fatigue", type := some "behavioral",
          duration := some "chronic", weight := Value.num (1/2), progression := none }
        (Value.num (1/10))
      = Except.ok
        ({ conditionsMap := some [(some "fatigue",
            { label := some "fatigue", type := some "behavioral",
              duration := some "chronic", weight := Value.num (1/2 + 1/10),
              progression := none })],
           conditions := none }, []) :=
  (checkAndSave_plain_update
    { conditionsMap := some [(some "fatigue",
        { label := some "fatigue", type := some "behavioral",
          duration := some "chronic", weight := Value.num (1/2), progression := none })],
      conditions := none }
    [(some "fatigue",
        { label := some "fatigue", type := some "behavioral",
          duration := some "chronic", weight := Value.num (1/2), progression := none })]
    (some "fatigue")
    { label := some "fatigue", type := some "behavioral",
      duration := some "chronic", weight := Value.num (1/2), progression := none }
    (1/2) (1/10) rfl rfl (by simp) (by norm_num)).1

/-! ## What the reducer and the outcome lookup of the source do -/

/-- For a permanent or temporary duration one step of the reducer returns its
accumulator or `undefined`. -/
theorem reducer_acc_or_undefined (duration : Option String) (acc num : Value)
    (hd : duration = some "permanent" ∨ duration = some "temporary") :
    _update.reducer duration acc num = acc ∨
      _update.reducer duration acc num = Value.undefined := by
  rcases hd with h | h
  · subst h
    unfold _update.reducer
    simp only [if_true]
    split_ifs <;> simp
  · subst h
    have hne : ¬ ((some "temporary" : Option String) = some "permanent") := by decide
    unfold _update.reducer
    simp only [if_neg hne, if_true]
    split_ifs <;> simp

/-- For a permanent or temporary duration the reduce started from 0 or from `undefined`
ends on 0 or on `undefined`. -/
theorem foldl_reducer_zero_or_undefined (duration : Option String)
    (hd : duration = some "permanent" ∨ duration = some "temporary") (updates : List Value) :
    ∀ acc : Value, acc = Value.num 0 ∨ acc = Value.undefined →
      List.foldl (_update.reducer duration) acc updates = Value.num 0 ∨
        List.foldl (_update.reducer duration) acc updates = Value.undefined := by
  induction updates with
  | nil => intro acc h; simpa using h
  | cons num rest ih =>
    intro acc h
    rw [List.foldl_cons]
    apply ih
    rcases reducer_acc_or_undefined duration acc num hd with h1 | h1
    · rw [h1]; exact h
    · rw [h1]; exact Or.inr rfl

/-- C16. For a duration that is `permanent` or `temporary` and every list of deltas, the
applied delta computed by the reducer of `_update` is exactly 0 or `undefined`: no delta
is ever added. In particular one step on a strictly positive delta of a permanent
condition returns the accumulator unchanged (the delta is discarded), and one step on a
strictly negative delta of a temporary condition returns `undefined` (the delta is
dropped). -/
theorem update_fallthrough (duration : Option String) (updates : List Value)
    (hd : duration = some "permanent" ∨ duration = some "temporary") :
    (_update.update duration updates = Value.num 0 ∨
      _update.update duration updates = Value.undefined) ∧
    (∀ (acc : Value) (d : ℚ), 0 < d →
      _update.reducer (some "permanent") acc (Value.num d) = acc) ∧
    (∀ (acc : Value) (d : ℚ), d < 0 →
      _update.reducer (some "temporary") acc (Value.num d) = Value.undefined) := by
  refine ⟨foldl_reducer_zero_or_undefined duration hd updates _ (Or.inl rfl), ?_, ?_⟩
  · intro acc d hpos
    have h1 : ¬ d < 0 := not_lt.mpr (le_of_lt hpos)
    simp [_update.reducer, Value.lt, Value.gt, h1, hpos]
  · intro acc d hneg
    have h1 : ¬ 0 < d := not_lt.mpr (le_of_lt hneg)
    simp [_update.reducer, Value.gt, h1]

/-- Witness of C16: a permanent condition with the deltas 1/10, 0, 3/10, the step on the
delta 3/10 from the accumulator 0, and the step of a temporary condition on -1/5. -/
theorem update_fallthrough_witness :
    (_update.update (some "permanent") [Value.num (1/10), Value.num 0, Value.num (3/10)]
        = Value.num 0 ∨
      _update.update (some "permanent") [Value.num (1/10), Value.num 0, Value.num (3/10)]
        = Value.undefined) ∧
    _update.reducer (some "permanent") (Value.num 0) (Value.num (3/10)) = Value.num 0 ∧
    _update.reducer (some "temporary") (Value.num 0) (Value.num (-1/5)) = Value.undefined :=
  ⟨(update_fallthrough (some "permanent")
      [Value.num (1/10), Value.num 0, Value.num (3/10)] (Or.inl rfl)).1,
   (update_fallthrough (some "permanent")
      [Value.num (1/10), Value.num 0, Value.num (3/10)] (Or.inl rfl)).2.1
      (Value.num 0) (3/10) (by norm_num),
   (update_fallthrough (some "permanent")
      [Value.num (1/10), Value.num 0, Value.num (3/10)] (Or.inl rfl)).2.2
      (Value.num 0) (-1/5) (by norm_num)⟩

/-- C17 (the claim as stated fails). The outcome collection has the key `'positive'`, the
effect label itself, and the entry `behavioral -> 1/2`, so that the claim gives
`-1 * 1/2 = -1/2` for the causal type `behavioral` and the effect `'positive'`; the code
returns 0, because the key it tests is `effect.type`, which is `undefined`. -/
theorem effects_label_key_counterexample :
    JSMap.has [(some "positive", Value.num 1), (some "behavioral", Value.num (1/2))]
        (some "positive") = true ∧
    Value.mul (Value.num (-1))
        ((JSMap.get [(some "positive", Value.num 1), (some "behavioral", Value.num (1/2))]
          (some "behavioral")).getD Value.undefined)
      = Value.num (-1/2) ∧
    _effects (some "behavioral")
        [(some "positive", Value.num 1), (some "behavioral", Value.num (1/2))] "positive"
      = Value.num 0 := by
  refine ⟨by decide, ?_, by decide⟩
  simp [JSMap.get, Value.mul]
  norm_num

/-- C17 (amended). For every causal type, every effect label and every outcome
collection, `_effects` tests whether the collection has the key `undefined` (neither the
effect label nor the causal type): when it has, the result is
`modifier * outcomes.get(type)`, the modifier being -1 for `'positive'` and 1 otherwise
and a missing entry reading as `undefined`; when it has not, the result is 0. -/
theorem effects_tests_undefined_key (type : Option String) (outcomes : JSMap Value)
    (effect : String) :
    (outcomes.has none = true →
      _effects type outcomes effect
        = Value.mul (if effect = "positive" then Value.num (-1) else Value.num 1)
            ((outcomes.get type).getD Value.undefined)) ∧
    (outcomes.has none = false → _effects type outcomes effect = Value.num 0) := by
  constructor
  · intro h
    simp [_effects, h]
  · intro h
    simp [_effects, h]

/-- Witness of C17 (amended): a collection with the key `undefined` and the entry
`behavioral -> 1/2`, and a collection without the key `undefined`. -/
theorem effects_tests_undefined_key_witness :
    _effects (some "behavioral") [(none, Value.num 1), (some "behavioral", Value.num (1/2))]
        "positive"
      = Value.mul (if "positive" = "positive" then Value.num (-1) else Value.num 1)
          ((JSMap.get [(none, Value.num 1), (some "behavioral", Value.num (1/2))]
            (some "behavioral")).getD Value.undefined) ∧
    _effects (some "behavioral") [(some "behavioral", Value.num (1/2))] "negative"
      = Value.num 0 :=
  ⟨(effects_tests_undefined_key (some "behavioral")
      [(none, Value.num 1), (some "behavioral", Value.num (1/2))] "positive").1 (by decide),
   (effects_tests_undefined_key (some "behavioral")
      [(some "behavioral", Value.num (1/2))] "negative").2 (by decide)⟩

/-! ## Frame of `_checkAndSave` -/

/-- C18. For every instance holding a map, every key, condition and applied delta,
`_checkAndSave` returns, and for every other key `k'` the lookup in the map afterwards is
the lookup before: an entry under `k'` is present afterwards exactly when it was present
before, with the same fields. The property `this.conditions` is unchanged too. -/
theorem checkAndSave_frame (self : Conditions) (m : JSMap Condition)
    (key : Option String) (c : Condition) (u : Value) (k' : Option String)
    (hm : self.conditionsMap = some m) (hne : k' ≠ key) :
    ∃ s' evs m', self._checkAndSave key c u = Except.ok (s', evs) ∧
      s'.conditionsMap = some m' ∧ m'.get k' = m.get k' ∧
      s'.conditions = self.conditions := by
  by_cases hrem : c.duration = some "temporary" ∧ Value.le c.weight (Value.num 0) = true
  · exact ⟨_, _, _, checkAndSave_of_removed self m key c u hm hrem.1 hrem.2, rfl,
      JSMap.get_delete_of_ne m key k' hne, rfl⟩
  · by_cases hgt : Value.gt (Value.add c.weight u) (Value.num 1) = true
    · exact ⟨_, _, _, checkAndSave_of_overflow self m key c u hm hrem hgt, rfl,
        JSMap.get_set_of_ne m key k' _ hne, rfl⟩
    · exact ⟨_, _, _, checkAndSave_of_no_overflow self m key c u hm hrem hgt, rfl,
        JSMap.get_set_of_ne m key k' _ hne, rfl⟩

/-- Witness of C18: the map holds a temporary condition of weight 0 under `stress` and
a chronic one under `fatigue`; the call on `stress` leaves the lookup of `fatigue` as it
was. -/
theorem checkAndSave_frame_witness :
    ∃ s' evs m',
      _checkAndSave
          { conditionsMap := some
              [(some "stress",
                { label := some "stress", type := some "behavioral",
                  duration := some "temporary", weight := Value.num 0,
                  progression := none }),
               (some "fatigue",
                { label := some "fatigue", type := some "behavioral",
                  duration := some "chronic", weight := Value.num (1/2),
                  progression := none })],
            conditions := none }
          (some "stress")
          { label := some "stress", type := some "behavioral",
            duration := some "temporary", weight := Value.num 0,
            progression := none }
          (Value.num (-1/2))
        = Except.ok (s', evs) ∧
      s'.conditionsMap = some m' ∧
      m'.get (some "fatigue")
        = JSMap.get
            [(some "stress",
              { label := some "stress", type := some "behavioral",
                duration := some "temporary", weight := Value.num 0,
                progression := none }),
             (some "fatigue",
              { label := some "fatigue", type := some "behavioral",
                duration := some "chronic", weight := Value.num (1/2),
                progression := none })]
            (some "fatigue") ∧
      s'.conditions = none :=
  checkAndSave_frame
    { conditionsMap := some
        [(some "stress",
          { label := some "stress", type := some "behavioral",
            duration := some "temporary", weight := Value.num 0,
            progression := none }),
         (some "fatigue",
          { label := some "fatigue", type := some "behavioral",
            duration := some "chronic", weight := Value.num (1/2),
            progression := none })],
      conditions := none }
    [(some "stress",
      { label := some "stress", type := some "behavioral",
        duration := some "temporary", weight := Value.num 0,
        progression := none }),
     (some "fatigue",
      { label := some "fatigue", type := some "behavioral",
        duration := some "chronic", weight := Value.num (1/2),
        progression := none })]
    (some "stress")
    { label := some "stress", type := some "behavioral",
      duration := some "temporary", weight := Value.num 0,
      progression := none }
    (Value.num (-1/2)) (some "fatigue") rfl (by decide)

/-! ## The constructor and `assess` -/

/-- C12 (the code at the failing input). With one prior condition the callback of the
reduce returns `undefined`, so the constructed instance has `conditionsMap` undefined and
its `status` throws a `TypeError`; with two prior conditions of distinct labels the
second call of the callback throws a `TypeError` and the constructor fails. -/
theorem constructor_loses_map :
    constructor
        [{ label := some "stress", type := some "behavioral",
           duration := some "temporary", weight := Value.num (2/5),
           progression := none }]
      = Except.ok { conditionsMap := none, conditions := none } ∧
    status { conditionsMap := none, conditions := none }
      = Except.error JSError.typeError ∧
    constructor
        [{ label := some "stress", type := some "behavioral",
           duration := some "temporary", weight := Value.num (2/5),
           progression := none },
         { label := some "fatigue", type := some "behavioral",
           duration := some "chronic", weight := Value.num (1/2),
           progression := none }]
      = Except.error JSError.typeError :=
  ⟨rfl, rfl, rfl⟩

/-- C13 (the claim as stated fails). First, on an instance whose map is empty,
`positive` is a value that is neither a `Map` nor an `Array` and has no method `has`:
`assess` does not fail, it returns the empty list of events. Second, `positive` is the
`Set` holding `'behavioral'`, and a chronic condition of weight 1/2 is held by
`this.conditions` and by the map, the natural delta being 1/8: `assess` does not fail
either, line 83 calls the `has` of the `Set`, the condition is stored with weight 5/8
and the empty list is returned. -/
theorem assess_non_collection_counterexample :
    assess (fun _ _ _ _ => Value.num 0) (Value.num 30)
        { conditionsMap := some [], conditions := none } Argument.other Argument.undefined
      = ({ conditionsMap := some [], conditions := none }, Except.ok []) ∧
    assess (fun _ _ _ _ => Value.num (1/8)) (Value.num 30)
        { conditionsMap := some [(some "fatigue",
            { label := some "fatigue", type := some "behavioral",
              duration := some "chronic", weight := Value.num (1/2),
              progression := some { rate := Value.num 1, weight := Value.num (1/10) } })],
          conditions := some [("fatigue",
            { label := some "fatigue", type := some "behavioral",
              duration := some "chronic", weight := Value.num (1/2),
              progression := some { rate := Value.num 1, weight := Value.num (1/10) } })] }
        (Argument.set [some "behavioral"]) Argument.undefined
      = ({ conditionsMap := some [(some "fatigue",
            { label := some "fatigue", type := some "behavioral",
              duration := some "chronic", weight := Value.num (5/8),
              progression := some { rate := Value.num 1, weight := Value.num (1/10) } })],
           conditions := some [("fatigue",
            { label := some "fatigue", type := some "behavioral",
              duration := some "chronic", weight := Value.num (1/2),
              progression := some { rate := Value.num 1, weight := Value.num (1/10) } })] },
         Except.ok []) := by
  refine ⟨rfl, ?_⟩
  simp [assess, assess.normalise, assess.forEach, assess.effects, _effects, JSMap.has,
    _update, _update.update, _update.reducer, propertyName, _checkAndSave,
    Value.gt, Value.le, Value.add, JSMap.set]
  norm_num

/-- The call `new Map(array)` throws when an element of the array is not an object. -/
theorem newMap_of_mem_none (items : List (Option (Option String × Value))) :
    ∀ m : JSMap Value, none ∈ items →
      assess.newMap items m = Except.error JSError.typeError := by
  induction items with
  | nil => intro m h; simp at h
  | cons a rest ih =>
    intro m h
    cases a with
    | none => rfl
    | some e =>
      have h' : none ∈ rest := by simpa using h
      simpa [assess.newMap] using ih (m.set e.1 e.2) h'

/-- The call `new Map(array)` returns a map when every element of the array is an object. -/
theorem newMap_of_not_mem_none (items : List (Option (Option String × Value))) :
    ∀ m : JSMap Value, none ∉ items → ∃ m', assess.newMap items m = Except.ok m' := by
  induction items with
  | nil => intro m _; exact ⟨m, rfl⟩
  | cons a rest ih =>
    intro m h
    cases a with
    | none => simp at h
    | some e =>
      have h' : none ∉ rest := by
        intro hmem
        exact h (List.mem_cons_of_mem _ hmem)
      simpa [assess.newMap] using ih (m.set e.1 e.2) h'

/-- The normalisation throws on an `Array` holding an element that is not an object. -/
theorem normalise_of_mem_none (items : List (Option (Option String × Value)))
    (h : none ∈ items) :
    assess.normalise (Argument.array items) = Except.error JSError.typeError := by
  simp [assess.normalise, newMap_of_mem_none items [] h]

/-- The normalisation returns on every value that is not an `Array` holding an element
that is not an object, and what it returns is the value `other` only for `other`. -/
theorem normalise_ok (a : Argument)
    (h : ∀ items, a = Argument.array items → none ∉ items) :
    ∃ a', assess.normalise a = Except.ok a' ∧ (a = Argument.other → a' = Argument.other) := by
  cases a with
  | undefined => exact ⟨_, rfl, fun h => by cases h⟩
  | map m => exact ⟨_, rfl, fun h => by cases h⟩
  | array items =>
    obtain ⟨m', hm'⟩ := newMap_of_not_mem_none items [] (h items rfl)
    exact ⟨Argument.map m', by simp [assess.normalise, hm'], fun h => by cases h⟩
  | set elements => exact ⟨_, rfl, fun h => by cases h⟩
  | other => exact ⟨_, rfl, fun _ => rfl⟩

/-- Every error is the `TypeError`. -/
theorem error_eq_typeError (e : JSError) : e = JSError.typeError := by
  cases e; rfl

/-- On a non-empty map the loop of `assess` throws while it visits the first condition,
before any update, as soon as one normalised argument has no method `has`. -/
theorem forEach_of_other (Costs_weight : Value → Value → Value → Option (List (String × Condition)) → Value)
    (age : Value) (positive negative : Argument) (e : Option String × Condition)
    (rest : List (Option String × Condition)) (self : Conditions)
    (evs : List EmergingEvent)
    (hbad : positive = Argument.other ∨ negative = Argument.other) :
    assess.forEach Costs_weight age positive negative (e :: rest) self evs
      = (self, Except.error JSError.typeError) := by
  obtain ⟨key, condition⟩ := e
  unfold assess.forEach
  cases hp : condition.progression with
  | none => rfl
  | some progression =>
    rcases hbad with hb | hb
    · subst hb
      simp [assess.effects]
    · subst hb
      cases hpos : assess.effects condition.type positive "positive" with
      | error err =>
        simp only [hpos]
      | ok v =>
        simp only [hpos]
        rfl

/-- C13 (amended). `assess` has no shape check other than `instanceof Array` and no
`InvalidArgument` error. (a) When `positive` or `negative` is an `Array` holding an
element that is not an object, `new Map` throws a `TypeError` at the normalisation step
and the instance is left unchanged. (b) When `positive` or `negative` is neither a `Map`
nor an `Array` and has no method `has`, and the normalisation does not throw on the other
argument, the instance is left unchanged: the call returns the empty list when the
condition map is empty and otherwise throws a `TypeError` (at `forEach` when the map is
undefined, else while the first condition is visited, before any update). (c) A `Set`
that does not hold `undefined` is not rejected: the normalisation keeps it and the
outcome lookup on it returns 0, as on a `Map` without a match. -/
theorem assess_malformed (Costs_weight : Value → Value → Value → Option (List (String × Condition)) → Value)
    (age : Value) (self : Conditions) (positive negative : Argument) :
    (∀ items, none ∈ items →
      positive = Argument.array items ∨ negative = Argument.array items →
      assess Costs_weight age self positive negative
        = (self, Except.error JSError.typeError)) ∧
    (positive = Argument.other ∨ negative = Argument.other →
      (∀ items, positive = Argument.array items → none ∉ items) →
      (∀ items, negative = Argument.array items → none ∉ items) →
      (self.conditionsMap = some [] →
        assess Costs_weight age self positive negative = (self, Except.ok [])) ∧
      (self.conditionsMap ≠ some [] →
        assess Costs_weight age self positive negative
          = (self, Except.error JSError.typeError))) ∧
    (∀ (elements : List (Option String)) (type : Option String) (effect : String),
      none ∉ elements →
      assess.normalise (Argument.set elements) = Except.ok (Argument.set elements) ∧
      assess.effects type (Argument.set elements) effect = Except.ok (Value.num 0)) := by
  refine ⟨?_, ?_, ?_⟩
  · intro items hmem hor
    unfold assess
    rcases hor with h | h
    · subst h
      rw [normalise_of_mem_none items hmem]
    · subst h
      cases hpos : assess.normalise positive with
      | error err => simp [error_eq_typeError err]
      | ok p => simp [normalise_of_mem_none items hmem]
  · intro hbad hpos hneg
    obtain ⟨p, hp, hpo⟩ := normalise_ok positive hpos
    obtain ⟨n, hn, hno⟩ := normalise_ok negative hneg
    have hbad' : p = Argument.other ∨ n = Argument.other :=
      hbad.imp hpo hno
    constructor
    · intro h
      simp [assess, hp, hn, h, assess.forEach]
    · intro h
      cases hm : self.conditionsMap with
      | none => simp [assess, hp, hn, hm]
      | some m =>
        cases m with
        | nil => exact absurd hm h
        | cons e rest =>
          simp only [assess, hp, hn, hm]
          exact forEach_of_other Costs_weight age p n e rest self [] hbad'
  · intro elements type effect hmem
    refine ⟨rfl, ?_⟩
    simp [assess.effects, hmem]

/-- Witness of C13 (amended): an `Array` holding a number, a value without a method
`has` on an empty map and on a map holding one condition, and a `Set`. -/
theorem assess_malformed_witness :
    assess (fun _ _ _ _ => Value.num 0) (Value.num 30)
        { conditionsMap := some [], conditions := none }
        (Argument.array [some (some "behavioral", Value.num (1/2)), none])
        Argument.undefined
      = ({ conditionsMap := some [], conditions := none },
         Except.error JSError.typeError) ∧
    assess (fun _ _ _ _ => Value.num 0) (Value.num 30)
        { conditionsMap := some [], conditions := none } Argument.other Argument.undefined
      = ({ conditionsMap := some [], conditions := none }, Except.ok []) ∧
    assess (fun _ _ _ _ => Value.num 0) (Value.num 30)
        { conditionsMap := some [(some "stress",
            { label := some "stress", type := some "behavioral",
              duration := some "temporary", weight := Value.num (2/5),
              progression := some { rate := Value.num 1, weight := Value.num (1/10) } })],
          conditions := none }
        Argument.other Argument.undefined
      = ({ conditionsMap := some [(some "stress",
            { label := some "stress", type := some "behavioral",
              duration := some "temporary", weight := Value.num (2/5),
              progression := some { rate := Value.num 1, weight := Value.num (1/10) } })],
           conditions := none },
         Except.error JSError.typeError) ∧
    assess.effects (some "behavioral") (Argument.set [some "behavioral"]) "positive"
      = Except.ok (Value.num 0) :=
  ⟨(assess_malformed (fun _ _ _ _ => Value.num 0) (Value.num 30)
      { conditionsMap := some [], conditions := none }
      (Argument.array [some (some "behavioral", Value.num (1/2)), none])
      Argument.undefined).1
      [some (some "behavioral", Value.num (1/2)), none] (by simp) (Or.inl rfl),
   ((assess_malformed (fun _ _ _ _ => Value.num 0) (Value.num 30)
      { conditionsMap := some [], conditions := none } Argument.other Argument.undefined).2.1
      (Or.inl rfl) (fun _ h => by cases h) (fun _ h => by cases h)).1 rfl,
   ((assess_malformed (fun _ _ _ _ => Value.num 0) (Value.num 30)
      { conditionsMap := some [(some "stress",
          { label := some "stress", type := some "behavioral",
            duration := some "temporary", weight := Value.num (2/5),
            progression := some { rate := Value.num 1, weight := Value.num (1/10) } })],
        conditions := none }
      Argument.other Argument.undefined).2.1
      (Or.inl rfl) (fun _ h => by cases h) (fun _ h => by cases h)).2 (by simp),
   ((assess_malformed (fun _ _ _ _ => Value.num 0) (Value.num 30)
      { conditionsMap := some [], conditions := none } Argument.other Argument.undefined).2.2
      [some "behavioral"] (some "behavioral") "positive" (by simp)).2⟩

/-- Once the accumulator is `undefined`, the reduce of the constructor throws on the
next prior condition. -/
theorem constructor_reduce_undefined (c : Condition) (rest : List Condition) :
    constructor.reduce (c :: rest) none = Except.error JSError.typeError :=
  rfl

/-- The constructor on no prior condition: the empty map. -/
theorem constructor_nil :
    constructor [] = Except.ok { conditionsMap := some [], conditions := none } :=
  rfl

/-- The constructor on one prior condition: `conditionsMap` is `undefined`. -/
theorem constructor_singleton (c : Condition) :
    constructor [c] = Except.ok { conditionsMap := none, conditions := none } :=
  rfl

/-- The constructor on two or more prior conditions throws. -/
theorem constructor_two_or_more (c₁ c₂ : Condition) (rest : List Condition) :
    constructor (c₁ :: c₂ :: rest) = Except.error JSError.typeError :=
  rfl

/-- The normalisation returns on every typed outcome input. -/
theorem normalise_toArgument (o : Outcomes) :
    ∃ a, assess.normalise o.toArgument = Except.ok a := by
  cases o with
  | undefined => exact ⟨_, rfl⟩
  | map m => exact ⟨_, rfl⟩
  | array pairs =>
    obtain ⟨a, ha, _⟩ := normalise_ok (Argument.array (pairs.map some))
      (fun items h => by cases h; simp)
    exact ⟨a, ha⟩
  | other => exact ⟨_, rfl⟩

/-- On an empty map `assess` returns the empty list on typed outcome inputs and leaves
the instance as it is. -/
theorem assess_empty_map (Costs_weight : Value → Value → Value → Option (List (String × Condition)) → Value)
    (age : Value) (positive negative : Outcomes) :
    assess Costs_weight age { conditionsMap := some [], conditions := none }
        positive.toArgument negative.toArgument
      = ({ conditionsMap := some [], conditions := none }, Except.ok []) := by
  obtain ⟨p, hp⟩ := normalise_toArgument positive
  obtain ⟨n, hn⟩ := normalise_toArgument negative
  simp [assess, hp, hn, assess.forEach]

/-- On an empty map `assess` leaves the instance as it is and returns the empty list or
throws, whatever the arguments. -/
theorem assess_empty_map_any (Costs_weight : Value → Value → Value → Option (List (String × Condition)) → Value)
    (age : Value) (a b : Argument) :
    (assess Costs_weight age { conditionsMap := some [], conditions := none } a b).1
      = { conditionsMap := some [], conditions := none } ∧
    ((assess Costs_weight age { conditionsMap := some [], conditions := none } a b).2
        = Except.ok [] ∨
      (assess Costs_weight age { conditionsMap := some [], conditions := none } a b).2
        = Except.error JSError.typeError) := by
  unfold assess
  cases ha : assess.normalise a with
  | error err => simp [error_eq_typeError err]
  | ok p =>
    cases hb : assess.normalise b with
    | error err => simp [error_eq_typeError err]
    | ok n => simp [assess.forEach]

/-- On an undefined map `assess` throws and leaves the instance as it is, whatever the
arguments. -/
theorem assess_undefined_map (Costs_weight : Value → Value → Value → Option (List (String × Condition)) → Value)
    (age : Value) (a b : Argument) :
    assess Costs_weight age { conditionsMap := none, conditions := none } a b
      = ({ conditionsMap := none, conditions := none }, Except.error JSError.typeError) := by
  unfold assess
  cases ha : assess.normalise a with
  | error err => simp [error_eq_typeError err]
  | ok p =>
    cases hb : assess.normalise b with
    | error err => simp [error_eq_typeError err]
    | ok n => simp

/-- C19. For every list of prior conditions and all typed outcome inputs of `assess`:
with no prior condition the constructor yields the empty map and `assess` returns the
empty list of events; with exactly one prior condition the constructor yields an
instance whose `conditionsMap` is undefined and `assess` throws; with two or more prior
conditions the constructor throws. Hence on every instance the constructor returns,
`assess` leaves the instance unchanged and either returns the empty list or throws; and
this last fact holds for arguments of any shape. -/
theorem constructor_instances_never_update (Costs_weight : Value → Value → Value → Option (List (String × Condition)) → Value)
    (age : Value) (priorConditions : List Condition) (positive negative : Outcomes) :
    (priorConditions.length = 0 →
      constructor priorConditions
        = Except.ok { conditionsMap := some [], conditions := none } ∧
      assess Costs_weight age { conditionsMap := some [], conditions := none }
          positive.toArgument negative.toArgument
        = ({ conditionsMap := some [], conditions := none }, Except.ok [])) ∧
    (priorConditions.length = 1 →
      constructor priorConditions
        = Except.ok { conditionsMap := none, conditions := none } ∧
      assess Costs_weight age { conditionsMap := none, conditions := none }
          positive.toArgument negative.toArgument
        = ({ conditionsMap := none, conditions := none },
           Except.error JSError.typeError)) ∧
    (2 ≤ priorConditions.length →
      constructor priorConditions = Except.error JSError.typeError) ∧
    (∀ s : Conditions, constructor priorConditions = Except.ok s →
      (assess Costs_weight age s positive.toArgument negative.toArgument).1 = s ∧
      ((assess Costs_weight age s positive.toArgument negative.toArgument).2
          = Except.ok [] ∨
        (assess Costs_weight age s positive.toArgument negative.toArgument).2
          = Except.error JSError.typeError)) ∧
    (∀ (s : Conditions) (a b : Argument), constructor priorConditions = Except.ok s →
      (assess Costs_weight age s a b).1 = s ∧
      ((assess Costs_weight age s a b).2 = Except.ok [] ∨
        (assess Costs_weight age s a b).2 = Except.error JSError.typeError)) := by
  have hall : ∀ (s : Conditions) (a b : Argument),
      constructor priorConditions = Except.ok s →
      (assess Costs_weight age s a b).1 = s ∧
      ((assess Costs_weight age s a b).2 = Except.ok [] ∨
        (assess Costs_weight age s a b).2 = Except.error JSError.typeError) := by
    intro s a b hs
    match priorConditions, hs with
    | [], hs =>
      rw [constructor_nil] at hs
      cases hs
      exact assess_empty_map_any Costs_weight age a b
    | [c], hs =>
      rw [constructor_singleton] at hs
      cases hs
      rw [assess_undefined_map]
      exact ⟨rfl, Or.inr rfl⟩
    | c₁ :: c₂ :: rest, hs =>
      rw [constructor_two_or_more] at hs
      cases hs
  refine ⟨?_, ?_, ?_, fun s hs => hall s _ _ hs, hall⟩
  · intro h
    have hnil : priorConditions = [] := List.length_eq_zero.mp h
    subst hnil
    exact ⟨rfl, assess_empty_map Costs_weight age positive negative⟩
  · intro h
    obtain ⟨c, hc⟩ := List.length_eq_one.mp h
    subst hc
    exact ⟨rfl, assess_undefined_map Costs_weight age _ _⟩
  · intro h
    match priorConditions, h with
    | c₁ :: c₂ :: rest, _ => rfl

/-- Witness of C19: no prior condition, one prior condition, two prior conditions. -/
theorem constructor_instances_never_update_witness :
    (constructor [] = Except.ok { conditionsMap := some [], conditions := none } ∧
      assess (fun _ _ _ _ => Value.num (1/10)) (Value.num 30)
          { conditionsMap := some [], conditions := none }
          (Outcomes.toArgument (Outcomes.map [(some "behavioral", Value.num (1/2))]))
          (Outcomes.toArgument Outcomes.undefined)
        = ({ conditionsMap := some [], conditions := none }, Except.ok [])) ∧
    (constructor
        [{ label := some "stress", type := some "behavioral",
           duration := some "temporary", weight := Value.num (2/5),
           progression := some { rate := Value.num 1, weight := Value.num (1/10) } }]
        = Except.ok { conditionsMap := none, conditions := none } ∧
      assess (fun _ _ _ _ => Value.num (1/10)) (Value.num 30)
          { conditionsMap := none, conditions := none }
          (Outcomes.toArgument (Outcomes.map [(some "behavioral", Value.num (1/2))]))
          (Outcomes.toArgument Outcomes.undefined)
        = ({ conditionsMap := none, conditions := none },
           Except.error JSError.typeError)) ∧
    constructor
        [{ label := some "stress", type := some "behavioral",
           duration := some "temporary", weight := Value.num (2/5),
           progression := some { rate := Value.num 1, weight := Value.num (1/10) } },
         { label := some "stress", type := some "behavioral",
           duration := some "temporary", weight := Value.num (2/5),
           progression := some { rate := Value.num 1, weight := Value.num (1/10) } }]
      = Except.error JSError.typeError :=
  ⟨(constructor_instances_never_update (fun _ _ _ _ => Value.num (1/10)) (Value.num 30) []
      (Outcomes.map [(some "behavioral", Value.num (1/2))]) Outcomes.undefined).1 rfl,
   (constructor_instances_never_update (fun _ _ _ _ => Value.num (1/10)) (Value.num 30)
      [{ label := some "stress", type := some "behavioral",
         duration := some "temporary", weight := Value.num (2/5),
         progression := some { rate := Value.num 1, weight := Value.num (1/10) } }]
      (Outcomes.map [(some "behavioral", Value.num (1/2))]) Outcomes.undefined).2.1 rfl,
   (constructor_instances_never_update (fun _ _ _ _ => Value.num (1/10)) (Value.num 30)
      [{ label := some "stress", type := some "behavioral",
         duration := some "temporary", weight := Value.num (2/5),
         progression := some { rate := Value.num 1, weight := Value.num (1/10) } },
       { label := some "stress", type := some "behavioral",
         duration := some "temporary", weight := Value.num (2/5),
         progression := some { rate := Value.num 1, weight := Value.num (1/10) } }]
      (Outcomes.map [(some "behavioral", Value.num (1/2))]) Outcomes.undefined).2.2.1
      (by decide)⟩

end Conditions
